import Mathlib

/-!
Verification of the rainmaker agent's state-synchronization router, local
control property registry and OTA update/rollback engine.

The definitions below are a shallow embedding of the Rust sources:
`rainmaker/src/lib.rs`, `rainmaker/src/device.rs`, `rainmaker/src/local_ctrl.rs`,
`rainmaker/src/ota.rs` and `components/src/local_ctrl.rs`.  Parts of the
repository that are referenced but whose source files are not available
(`node.rs`, `param.rs`, `constants.rs`, and the `LocalControl` dispatcher of
the components crate) are modelled from the specification and marked as such
in their doc comments.  Effectful operations (MQTT publications, NVS writes,
firmware-slot operations, logging) are modelled as explicit event traces;
panics and fatal errors are modelled with `Option`/`Except`.
-/

set_option autoImplicit false

namespace Rainmaker

/-- JSON values as carried in parameter maps (`serde_json::Value` restricted to
the shapes the agent exchanges). -/
inductive JValue where
  | null : JValue
  | bool (b : Bool) : JValue
  | num (n : Int) : JValue
  | str (s : String) : JValue
  deriving DecidableEq, Repr

/-- A `{param_name: value}` submap (`HashMap<String, Value>` in the source,
modelled as an association list). -/
abbrev ParamMap := List (String × JValue)

/-- A `{device_name: {param_name: value}}` payload
(`HashMap<String, HashMap<String, Value>>` in the source). -/
abbrev RouterPayload := List (String × ParamMap)

/-- Device types (`DeviceType` enum in device.rs; only the tag matters for the
claims, so a representative subset of constructors is kept). -/
inductive DeviceType where
  | switch | lightbulb | light | fan | temperatureSensor | other
  deriving DecidableEq, Repr

/-- A device parameter.  Modelled from the spec: `param.rs` is not under the
available sources; per §3 a Param carries a unique name and a typed value
(display metadata is irrelevant to the claims). -/
structure Param where
  name : String
  value : JValue
  deriving DecidableEq, Repr

/-- Modelled from the spec: `constants.rs` is not under the available sources.
`NODE_PARAMS_LOCAL_TOPIC_SUFFIX` is the suffix of the single outbound
"state changed" topic (§4.2, §6). -/
def NODE_PARAMS_LOCAL_TOPIC_SUFFIX : String := "params/local"

/-- The `Device` struct of device.rs.  The registered callback is user code;
only its presence is modelled (`hasCb`), since the claims are about when the
agent invokes it and with which arguments. -/
structure Device where
  name : String
  device_type : DeviceType
  primary_param : Option String
  attributes : List (String × String)
  params : List Param
  hasCb : Bool
  local_params_topic : String
  deriving DecidableEq, Repr

/-- `Device::new` (device.rs lines 83-97): the node id is fetched from the
factory partition; here it is passed explicitly.  The outbound params topic is
fixed at construction as `node/{node_id}/{NODE_PARAMS_LOCAL_TOPIC_SUFFIX}`. -/
def Device.new (node_id name : String) (device_type : DeviceType) : Device :=
  { name := name
    device_type := device_type
    primary_param := none
    attributes := []
    params := []
    hasCb := false
    local_params_topic := "node/" ++ node_id ++ "/" ++ NODE_PARAMS_LOCAL_TOPIC_SUFFIX }

/-- `HashMap::insert` on the attributes map: returns the previous value for
the key (if any) together with the updated map. -/
def attrInsert (m : List (String × String)) (k v : String) :
    Option String × List (String × String) :=
  match m with
  | [] => (none, [(k, v)])
  | (k2, v2) :: rest =>
    if k2 = k then (some v2, (k, v) :: rest)
    else
      let (old, rest2) := attrInsert rest k v
      (old, (k2, v2) :: rest2)

/-- `Device::add_attribute` (device.rs lines 104-108): the code calls
`.expect("Failed to add attribute")` on the `Option` returned by
`HashMap::insert`; an `Except.error` models the resulting panic. -/
def Device.add_attribute (dev : Device) (name value : String) :
    Except String Device :=
  let (old, attrs2) := attrInsert dev.attributes name value
  match old with
  | none => Except.error "Failed to add attribute"
  | some _ => Except.ok { dev with attributes := attrs2 }

/-- `Device::register_callback` (device.rs lines 116-118). -/
def Device.register_callback (dev : Device) : Device :=
  { dev with hasCb := true }

/-- The `DeviceHandle` struct of device.rs (borrowed views of the device's
state plus the outbound topic). -/
structure DeviceHandle where
  params : List Param
  name : String
  local_params_topic : String
  deriving DecidableEq, Repr

/-- The handle constructed by `Device::execute_callback` (device.rs lines
137-141) and passed to the registered callback. -/
def Device.callbackHandle (dev : Device) : DeviceHandle :=
  { params := dev.params
    name := dev.name
    local_params_topic := dev.local_params_topic }

/-- A single MQTT publication: topic together with the published
`{device_name: {param_name: value}}` object. -/
structure PublishMsg where
  topic : String
  payload : String × ParamMap
  deriving DecidableEq, Repr

/-- `DeviceHandle::update_and_report` (device.rs lines 161-171): publishes the
single object `{self.name: params}` to the device's local-params topic. -/
def DeviceHandle.update_and_report (h : DeviceHandle) (params : ParamMap) :
    List PublishMsg :=
  [{ topic := h.local_params_topic, payload := (h.name, params) }]

/-- Observable events of the synchronization router and the local-control set
path. `execCb` records that a device's registered callback was invoked (via
`Device::execute_callback`) with the given submap. -/
inductive Ev where
  | execCb (device : String) (params : ParamMap)
  | logUnknownDevice (device : String)
  | logReadonly
  | logUnknownProp (name : String)
  | setApplied (name : String)
  deriving DecidableEq, Repr

/-- `Device::execute_callback` (device.rs lines 130-144): a no-op when no
callback is registered, otherwise the callback is invoked once with the
requested changes (recorded as an `execCb` event). -/
def Device.execute_callback (dev : Device) (params : ParamMap) : List Ev :=
  if dev.hasCb then [Ev.execCb dev.name params] else []

/-- The `Node` struct.  Modelled from the spec: `node.rs` is not under the
available sources; per §3 a Node is an id plus the owned ordered sequence of
Devices. -/
structure Node where
  id : String
  devices : List Device
  deriving DecidableEq, Repr

/-- Modelled from the spec: `Node::exeute_device_callback` (node.rs, called
from lib.rs line 272 and local_ctrl.rs line 186) looks the Device up by name;
an unknown device name is logged and skipped, not fatal (§4.2), otherwise
`execute_callback` is invoked with the submap. -/
def Node.exeute_device_callback (node : Node) (device : String)
    (params : ParamMap) : List Ev :=
  match node.devices.find? (fun d => d.name == device) with
  | some dev => dev.execute_callback params
  | none => [Ev.logUnknownDevice device]

/-- Modelled from the spec: `Node::get_param_values` (node.rs, called from
lib.rs line 144 and local_ctrl.rs line 163) returns the current parameter
snapshot `{device_name: {param_name: value}}`. -/
def Node.get_param_values (node : Node) : RouterPayload :=
  node.devices.map (fun d => (d.name, d.params.map (fun p => (p.name, p.value))))

/-- `remote_params_callback` (lib.rs lines 266-274): the decoded payload is a
`{device_name: {param_name: value}}` map; for each device named in it the
router dispatches that device's submap through
`Node::exeute_device_callback`. -/
def remote_params_callback (payload : RouterPayload) (node : Node) : List Ev :=
  payload.flatMap (fun e => node.exeute_device_callback e.1 e.2)

/-! Local control (rainmaker/src/local_ctrl.rs and the components crate). -/

/-- `LOCAL_CTRL_TYPE_NODECONFIG` (local_ctrl.rs line 10). -/
def LOCAL_CTRL_TYPE_NODECONFIG : Nat := 1

/-- `LOCAL_CTRL_TYPE_PARAM` (local_ctrl.rs line 11). -/
def LOCAL_CTRL_TYPE_PARAM : Nat := 2

/-- `LOCAL_CTRL_FLAG_READONLY` (local_ctrl.rs line 13). -/
def LOCAL_CTRL_FLAG_READONLY : Nat := 1

/-- Serialized bytes returned by the local-control get accessor.  The
`serde_json` serializations are modelled as injective constructors tagging the
serialized datum. -/
inductive Bytes where
  | empty
  | nodeConfig (node : Node)
  | paramSnapshot (snapshot : RouterPayload)
  deriving DecidableEq, Repr

/-- `local_ctrl_get_val` (rainmaker/src/local_ctrl.rs lines 159-173):
`config` serializes the full Node, `params` serializes the current parameter
snapshot, any other name is logged and yields the default (empty) bytes. -/
def local_ctrl_get_val (name : String) (node : Node) : Bytes :=
  match name with
  | "config" => Bytes.nodeConfig node
  | "params" => Bytes.paramSnapshot node.get_param_values
  | _ => Bytes.empty

/-- `local_ctrl_set_val` (rainmaker/src/local_ctrl.rs lines 175-193): refuses
read-only flags, decodes a `params` payload into the router's mapping shape
and dispatches it per device; any other name is logged.  The decoded payload
is passed directly (the serde decoding step is the inverse of the modelled
serialization). -/
def local_ctrl_set_val (name : String) (_prop_type flags : Nat)
    (data : RouterPayload) (node : Node) : List Ev :=
  if flags = LOCAL_CTRL_FLAG_READONLY then [Ev.logReadonly]
  else
    match name with
    | "params" => data.flatMap (fun e => node.exeute_device_callback e.1 e.2)
    | _ => [Ev.logUnknownProp name]

/-- A registered local property: name, numeric type tag and flags, as passed
to `LocalControl::add_property` (rainmaker/src/local_ctrl.rs lines 31-36). -/
structure LocalProperty where
  name : String
  ptype : Nat
  flags : Nat
  deriving DecidableEq, Repr

/-- The two properties registered by `RmakerLocalCtrl::new`
(rainmaker/src/local_ctrl.rs lines 31-36): `config` is read-only, `params` is
writable. -/
def rmakerLocalProperties : List LocalProperty :=
  [{ name := "config", ptype := LOCAL_CTRL_TYPE_NODECONFIG,
     flags := LOCAL_CTRL_FLAG_READONLY },
   { name := "params", ptype := LOCAL_CTRL_TYPE_PARAM, flags := 0 }]

/-- The protocomm `Status` values used by the local-control handlers of the
components crate (`Status::Success` / `Status::Fail`). -/
inductive Status where
  | success
  | fail
  deriving DecidableEq, Repr

/-- The `PropertyInfo` message of a `GetPropertyValues` response
(components/src/local_ctrl.rs lines 101-105): name, numeric type, flags and
raw value bytes. -/
structure PropertyInfo where
  name : String
  ptype : Nat
  flags : Nat
  value : List Nat
  deriving DecidableEq, Repr

/-- A `PropertyValue` entry of a `CmdSetPropertyValues` request: property
name and value bytes.  The value bytes are modelled as their decoded utf8
text, because the handler's debug log calls
`std::str::from_utf8(..).unwrap()` on the first entry's bytes (line 127). -/
structure PropertyValue where
  name : String
  value : String
  deriving DecidableEq, Repr

/-- `handle_cmd_get_property_values` (components/src/local_ctrl.rs lines
92-117): for every requested index it pushes the hard-coded property info
`name = "Power"`, `type = 2`, `flags = 0`, `value = [0]` with a `Success`
status; it never consults the registered properties and never calls the
registry's get-accessor. -/
def handle_cmd_get_property_values (indices : List Nat) :
    Status × List PropertyInfo :=
  (Status.success,
   indices.map (fun _ => { name := "Power", ptype := 2, flags := 0, value := [0] }))

/-- `handle_cmd_set_property_values` (components/src/local_ctrl.rs lines
119-135): sets a blanket `Success` status, logs the first entry's value, and
returns; it performs no read-only flag check, applies no set-accessor and
invokes no device callback for any entry.  Indexing `values.props[0]` panics
on an empty entry list, modelled as `none`. -/
def handle_cmd_set_property_values (props : List PropertyValue) :
    Option Status :=
  match props with
  | [] => none
  | _ :: _ => some Status.success

/-! OTA update and rollback engine (rainmaker/src/ota.rs). -/

/-- `OTA_ROLLBACK_CHECK_DURATION` (ota.rs line 26), in milliseconds. -/
def OTA_ROLLBACK_CHECK_DURATION : Nat := 10000

/-- `OtaSatus` (ota.rs lines 30-39; the misspelling is the source's). -/
inductive OtaSatus where
  | inProgress
  | success
  | failed
  | rejected
  deriving DecidableEq, Repr

/-- Firmware slot states (`esp_idf_svc::ota::SlotState` as consumed by
ota.rs): `valid` and `unverified` are handled specially, the remaining states
fall into the defensive branch. -/
inductive SlotState where
  | factory
  | invalid
  | unverified
  | valid
  deriving DecidableEq, Repr

/-- Observable events of the OTA engine: log lines, outbound status reports,
the HTTP request, chunk writes to the update target, completion of the update
target, NVS job-id persistence/removal, delays, slot marking and resets. -/
inductive OtaEvent where
  | logWarn (msg : String)
  | logError (msg : String)
  | report (status : OtaSatus) (additional_info : String)
  | httpGet (url : String)
  | write (len : Nat)
  | updateComplete
  | persistJobId (id : String)
  | removeJobId
  | delayMs (ms : Nat)
  | restart
  | spawnValidate (jobId : String)
  | markSlotValid
  | markSlotInvalidAndReboot
  deriving DecidableEq, Repr

/-- The download loop of `apply_ota` (ota.rs lines 96-113) run against the
list of chunk sizes the HTTP stream delivers: a zero-length read retries, a
non-zero read of `r` bytes is written to the update target and added to the
running total, and the loop breaks exactly when the running total equals the
image length.  `total_read_len` is a `u32` in the source: each read length is
cast with `as u32` and accumulated wrapping modulo `4294967296` (2^32).
Returns the list of written chunk sizes, or `none` when the stream is
exhausted before the total matches the image length (the next read fails: no
successful completion). -/
def otaDownloadLoop (reads : List Nat) (image_len total : Nat) :
    Option (List Nat) :=
  match reads with
  | [] => none
  | r :: rest =>
    if r = 0 then otaDownloadLoop rest image_len total
    else
      if (total + r % 4294967296) % 4294967296 = image_len then some [r]
      else
        (otaDownloadLoop rest image_len ((total + r % 4294967296) % 4294967296)).map
          (fun ws => r :: ws)

namespace RmakerOta

/-- Event trace of a completed `apply_ota` run that wrote the chunks `ws`:
HTTP request, initial status report, one write per delivered chunk, update
completion, job-id persistence, final status report, grace delay, restart
(ota.rs lines 71-132). -/
def otaEventsOf (url : String) (ws : List Nat) (ota_job_id : String) :
    List OtaEvent :=
  [OtaEvent.httpGet url,
   OtaEvent.report OtaSatus.inProgress "Starting OTA download"]
    ++ ws.map OtaEvent.write
    ++ [OtaEvent.updateComplete,
        OtaEvent.persistJobId ota_job_id,
        OtaEvent.report OtaSatus.inProgress
          "Download Complete. Rebooting to new firmware",
        OtaEvent.delayMs 10000,
        OtaEvent.restart]

/-- `RmakerOta::apply_ota` (ota.rs lines 57-133).  `in_progress` is the value
of the guarded `ota_in_progress` flag at entry; `content_len` is the response
content length (`None` hits the source's `unreachable!`, modelled as `none`;
a `Some len` is truncated to u32 by the source's `len as u32` on line 77,
modelled as `len % 4294967296`); `reads` are the chunk sizes the response
stream delivers.  The result is the event trace up to the final restart
(`apply_ota` only returns on error, both modelled as `none`). -/
def apply_ota (in_progress : Bool) (url : String) (content_len : Option Nat)
    (reads : List Nat) (ota_job_id : String) : Option (List OtaEvent) :=
  if in_progress then some [OtaEvent.logWarn "OTA already in progress"]
  else
    match content_len with
    | none => none
    | some len =>
      match otaDownloadLoop reads (len % 4294967296) 0 with
      | none => none
      | some ws => some (otaEventsOf url ws ota_job_id)

/-- Result of boot-time reconciliation: the persisted job id afterwards, the
`ota_in_progress` flag afterwards, and the emitted events. -/
structure RollbackResult where
  jobId : Option String
  inProgress : Bool
  events : List OtaEvent
  deriving DecidableEq, Repr

/-- `RmakerOta::verify_ota` (ota.rs lines 156-188), entered with
`in_progress = true` and the job id persisted: a `Valid` running slot reports
`Rejected` and clears both; an `Unverified` slot spawns the background
validation task (flag and job id untouched); any other slot state is logged
and both are cleared without reporting. -/
def verify_ota (ota_job_id : String) (slot : SlotState) : RollbackResult :=
  match slot with
  | SlotState.valid =>
    { jobId := none, inProgress := false,
      events := [OtaEvent.report OtaSatus.rejected "Firmware rolled back",
                 OtaEvent.removeJobId] }
  | SlotState.unverified =>
    { jobId := some ota_job_id, inProgress := true,
      events := [OtaEvent.spawnValidate ota_job_id] }
  | _ =>
    { jobId := none, inProgress := false,
      events := [OtaEvent.logWarn "Firmware State: Not doing anything",
                 OtaEvent.removeJobId] }

/-- `RmakerOta::manage_rollback` (ota.rs lines 135-154): with a persisted job
id the flag is set to true and `verify_ota` runs; with no persisted job id
nothing happens (the flag keeps its initial `false`). -/
def manage_rollback (persisted_job_id : Option String) (slot : SlotState) :
    RollbackResult :=
  match persisted_job_id with
  | none => { jobId := none, inProgress := false, events := [] }
  | some jid => verify_ota jid slot

/-- `RmakerOta::validate_ota` (ota.rs lines 190-212).  `connected` is the MQTT
connectivity test outcome after the check delay, `mark_valid_ok` whether
`mark_running_slot_valid` succeeds, and `in_progress` the value of the
`ota_in_progress` flag when the task runs: the spawned task receives no
reference to the flag, so the flag is returned unchanged on every path. -/
def validate_ota (connected mark_valid_ok : Bool) (ota_job_id : String)
    (in_progress : Bool) : RollbackResult :=
  if connected then
    if mark_valid_ok then
      { jobId := none, inProgress := in_progress,
        events := [OtaEvent.delayMs OTA_ROLLBACK_CHECK_DURATION,
                   OtaEvent.markSlotValid,
                   OtaEvent.report OtaSatus.success "Firmware verified successfully",
                   OtaEvent.removeJobId] }
    else
      { jobId := some ota_job_id, inProgress := in_progress,
        events := [OtaEvent.delayMs OTA_ROLLBACK_CHECK_DURATION,
                   OtaEvent.logError "Failure in marking slot as valid"] }
  else
    { jobId := some ota_job_id, inProgress := in_progress,
      events := [OtaEvent.delayMs OTA_ROLLBACK_CHECK_DURATION,
                 OtaEvent.logError "Could not validate firmware. Rolling back.",
                 OtaEvent.delayMs 1000,
                 OtaEvent.markSlotInvalidAndReboot] }

end RmakerOta

/-! Helper observables used by the theorems. -/

/-- Callback-invocation events for device `d`. -/
def execsFor (d : String) (evs : List Ev) : List Ev :=
  evs.filter (fun e =>
    match e with
    | Ev.execCb d2 _ => d2 == d
    | _ => false)

/-- All callback-invocation events of a trace. -/
def onlyExecs (evs : List Ev) : List Ev :=
  evs.filter (fun e =>
    match e with
    | Ev.execCb _ _ => true
    | _ => false)

/-- Whether an OTA event is a chunk write. -/
def isWriteEv : OtaEvent → Bool
  | OtaEvent.write _ => true
  | _ => false

/-- Whether an OTA event is the job-id persistence. -/
def isPersistEv : OtaEvent → Bool
  | OtaEvent.persistJobId _ => true
  | _ => false

/-- The number of bytes an OTA event writes, if it is a write. -/
def writeLen : OtaEvent → Option Nat
  | OtaEvent.write l => some l
  | _ => none

/-- Sample device used by concrete witnesses: the LED device of the
end-to-end scenario (§8), with a registered callback. -/
def sampleLed : Device :=
  (Device.new "N1" "LED" DeviceType.switch).register_callback

/-- Sample node owning `sampleLed`. -/
def sampleNode : Node :=
  { id := "N1", devices := [sampleLed] }

end Rainmaker

namespace Rainmaker

/-- C5: calling `apply_ota` while `in_progress` is already true logs a
warning and returns `Ok` with no effect: no HTTP request, no write to the
update target, no job-id persistence, and no status report is emitted for the
new attempt. -/
theorem apply_ota_in_progress_is_noop (url : String) (content_len : Option Nat)
    (reads : List Nat) (ota_job_id : String) :
    RmakerOta.apply_ota true url content_len reads ota_job_id =
      some [OtaEvent.logWarn "OTA already in progress"] := rfl

/-- C4: evaluating `validate_ota` at the failing input (connectivity present
at the check, slot marking succeeds): the slot is marked valid, `Success` is
reported, the persisted job id is cleared — but the `ota_in_progress` flag,
which was `true` when the task was spawned, is left `true`, because the
spawned task receives no reference to the flag.  The disconnected case is
also evaluated: nothing further is reported, and after a brief delay the slot
is marked invalid and the device resets with the job id left in place. -/
theorem validate_ota_never_clears_in_progress :
    RmakerOta.validate_ota true true "JOB1" true =
      { jobId := none, inProgress := true,
        events := [OtaEvent.delayMs OTA_ROLLBACK_CHECK_DURATION,
                   OtaEvent.markSlotValid,
                   OtaEvent.report OtaSatus.success "Firmware verified successfully",
                   OtaEvent.removeJobId] }
  ∧ RmakerOta.validate_ota false true "JOB1" true =
      { jobId := some "JOB1", inProgress := true,
        events := [OtaEvent.delayMs OTA_ROLLBACK_CHECK_DURATION,
                   OtaEvent.logError "Could not validate firmware. Rolling back.",
                   OtaEvent.delayMs 1000,
                   OtaEvent.markSlotInvalidAndReboot] } := by
  exact ⟨rfl, rfl⟩

/-- C3: boot-time reconciliation truth table.  With a persisted job id: a
`Valid` slot reports `Rejected`, clears the job id and clears `in_progress`;
an `Unverified` slot sets `in_progress` and spawns the background validation
task; any other slot state clears the job id and `in_progress` without
reporting (only a log line).  With no persisted job id nothing changes. -/
theorem manage_rollback_truth_table (jid : String) :
    RmakerOta.manage_rollback (some jid) SlotState.valid =
      { jobId := none, inProgress := false,
        events := [OtaEvent.report OtaSatus.rejected "Firmware rolled back",
                   OtaEvent.removeJobId] }
  ∧ RmakerOta.manage_rollback (some jid) SlotState.unverified =
      { jobId := some jid, inProgress := true,
        events := [OtaEvent.spawnValidate jid] }
  ∧ (∀ s : SlotState, s ≠ SlotState.valid → s ≠ SlotState.unverified →
      RmakerOta.manage_rollback (some jid) s =
        { jobId := none, inProgress := false,
          events := [OtaEvent.logWarn "Firmware State: Not doing anything",
                     OtaEvent.removeJobId] })
  ∧ (∀ s : SlotState, RmakerOta.manage_rollback none s =
      { jobId := none, inProgress := false, events := [] }) := by
  refine ⟨rfl, rfl, ?_, fun s => rfl⟩
  intro s h1 h2
  cases s with
  | valid => exact absurd rfl h1
  | unverified => exact absurd rfl h2
  | factory => rfl
  | invalid => rfl

/-- Witness for C3 at concrete inputs: job id `"job"`, slot `Invalid`. -/
theorem manage_rollback_truth_table_witness :
    RmakerOta.manage_rollback (some "job") SlotState.valid =
      { jobId := none, inProgress := false,
        events := [OtaEvent.report OtaSatus.rejected "Firmware rolled back",
                   OtaEvent.removeJobId] }
  ∧ RmakerOta.manage_rollback (some "job") SlotState.invalid =
      { jobId := none, inProgress := false,
        events := [OtaEvent.logWarn "Firmware State: Not doing anything",
                   OtaEvent.removeJobId] } :=
  ⟨(manage_rollback_truth_table "job").1,
   (manage_rollback_truth_table "job").2.2.1 SlotState.invalid
     (by decide) (by decide)⟩

/-- C9: for any device, the handle that `execute_callback` hands to the
registered callback reports through exactly one publication, of the single
object `{device_name: {param_name: value}}`, on the device's outbound
params topic; and any two devices constructed for the same node id share
that one outbound topic, regardless of which origin triggered the
callback. -/
theorem update_and_report_publishes_once (dev : Device) (params : ParamMap) :
    dev.callbackHandle.update_and_report params =
      [{ topic := dev.local_params_topic, payload := (dev.name, params) }]
  ∧ (dev.callbackHandle.update_and_report params).length = 1
  ∧ (∀ node_id n1 n2 t1 t2,
      (Device.new node_id n1 t1).local_params_topic =
        (Device.new node_id n2 t2).local_params_topic) :=
  ⟨rfl, rfl, fun _ _ _ _ _ => rfl⟩

/-- C7: a `SetPropertyValues` write to the `params` property whose decoded
payload is `{X: submap}` produces exactly the same event trace — in
particular the same device lookup and the same submap handed to
`execute_callback` — as a remote update carrying `{X: submap}`. -/
theorem local_params_write_equals_remote_update (X : String)
    (submap : ParamMap) (node : Node) :
    local_ctrl_set_val "params" LOCAL_CTRL_TYPE_PARAM 0 [(X, submap)] node =
      remote_params_callback [(X, submap)] node := rfl

/-- C6: evaluation of the `SetPropertyValues` handler at the failing inputs.
Although the `config` property is registered read-only (flags
`LOCAL_CTRL_FLAG_READONLY`, rainmaker/src/local_ctrl.rs lines 31-35), an
entry naming it is answered with a blanket `Success` status — not the failure
status the claim requires — and the handler performs no flag check, applies
no set-accessor and invokes no device callback for any entry (its result
carries a bare status and no events); an entry for the writable `params`
property equally never reaches the set-accessor. -/
theorem handle_cmd_set_property_values_never_rejects :
    handle_cmd_set_property_values [{ name := "config", value := "x" }] =
      some Status.success
  ∧ handle_cmd_set_property_values [{ name := "params", value := "x" }] =
      some Status.success
  ∧ (rmakerLocalProperties.find? (fun p => p.name == "config")).map
      LocalProperty.flags = some LOCAL_CTRL_FLAG_READONLY :=
  ⟨rfl, rfl, rfl⟩

/-- A device found by name lookup carries that name. -/
theorem find_device_name {node : Node} {d : String} {dev : Device}
    (h : node.devices.find? (fun dv => dv.name == d) = some dev) :
    dev.name = d := by
  have := List.find?_some h
  simpa using this

/-- Filtering a dispatch trace for a device is distributive over
concatenation. -/
theorem execsFor_append (d : String) (a b : List Ev) :
    execsFor d (a ++ b) = execsFor d a ++ execsFor d b := by
  simp [execsFor]

/-- Dispatching an entry for a different device name contributes no
callback-invocation event for this device. -/
theorem execsFor_entry_ne (node : Node) (d2 : String) (m : ParamMap)
    (d : String) (h : d2 ≠ d) :
    execsFor d (node.exeute_device_callback d2 m) = [] := by
  unfold Node.exeute_device_callback
  cases hf : node.devices.find? (fun dv => dv.name == d2) with
  | none => simp [execsFor]
  | some dev =>
    have hn : dev.name = d2 := find_device_name hf
    have hb : (d2 == d) = false := beq_eq_false_iff_ne.mpr h
    cases hc : dev.hasCb with
    | false => simp [Device.execute_callback, hc, execsFor]
    | true => simp [Device.execute_callback, hc, execsFor, hn, hb]

/-- A device not named in the payload receives no callback invocation. -/
theorem execsFor_absent (node : Node) (payload : RouterPayload) (d : String)
    (h : d ∉ payload.map Prod.fst) :
    execsFor d (remote_params_callback payload node) = [] := by
  induction payload with
  | nil => rfl
  | cons e rest ih =>
    simp only [List.map_cons, List.mem_cons, not_or] at h
    rw [remote_params_callback, List.flatMap_cons, ← remote_params_callback,
      execsFor_append, execsFor_entry_ne node e.1 e.2 d (fun he => h.1 he.symm),
      ih h.2, List.nil_append]

/-- A device name unknown to the node receives no callback invocation from
any payload. -/
theorem execsFor_unknown (node : Node) (d : String)
    (hfind : node.devices.find? (fun dv => dv.name == d) = none)
    (payload : RouterPayload) :
    execsFor d (remote_params_callback payload node) = [] := by
  induction payload with
  | nil => rfl
  | cons e rest ih =>
    rw [remote_params_callback, List.flatMap_cons, ← remote_params_callback,
      execsFor_append, ih]
    by_cases he : e.1 = d
    · rw [he, Node.exeute_device_callback, hfind]
      simp [execsFor]
    · rw [execsFor_entry_ne node e.1 e.2 d he, List.nil_append]

/-- The callback-invocation events of a trace are distributive over
concatenation. -/
theorem onlyExecs_append (a b : List Ev) :
    onlyExecs (a ++ b) = onlyExecs a ++ onlyExecs b := by
  simp [onlyExecs]

/-- Unfolding the router's dispatch over the first payload entry. -/
theorem remote_params_callback_cons (e : String × ParamMap)
    (rest : RouterPayload) (node : Node) :
    remote_params_callback (e :: rest) node =
      node.exeute_device_callback e.1 e.2 ++ remote_params_callback rest node := rfl

/-- Entries carrying a device name unknown to the node can be removed from a
payload without changing the callback invocations the payload produces. -/
theorem onlyExecs_drop_unknown (node : Node) (d : String)
    (hfind : node.devices.find? (fun dv => dv.name == d) = none)
    (payload : RouterPayload) :
    onlyExecs (remote_params_callback payload node) =
      onlyExecs (remote_params_callback
        (payload.filter (fun e => !(e.1 == d))) node) := by
  induction payload with
  | nil => rfl
  | cons e rest ih =>
    rw [remote_params_callback_cons, onlyExecs_append]
    by_cases he : e.1 = d
    · have hb : (e.1 == d) = true := beq_iff_eq.mpr he
      have hlog : onlyExecs (node.exeute_device_callback e.1 e.2) = [] := by
        rw [he, Node.exeute_device_callback, hfind]
        simp [onlyExecs]
      simp only [List.filter_cons, hb, Bool.not_true]
      simpa [hlog] using ih
    · have hb : (e.1 == d) = false := beq_eq_false_iff_ne.mpr he
      simp only [List.filter_cons, hb, Bool.not_false, if_true]
      rw [remote_params_callback_cons, onlyExecs_append, ih]

/-- C1: dispatch of a remote-update payload.  With distinct device names in
the payload (HashMap keys): a registered device with a callback that is named
in the payload has its callback invoked exactly once, with exactly its
submap; a device not named in the payload receives no invocation; and a
payload name matching no registered device produces no invocation, does not
affect the invocations produced for the other entries of the same payload
(removing its entries leaves the callback events unchanged), and is logged
rather than raising an error. -/
theorem remote_update_dispatch (node : Node) (payload : RouterPayload)
    (hkeys : (payload.map Prod.fst).Nodup) :
    (∀ d m dev, (d, m) ∈ payload →
      node.devices.find? (fun dv => dv.name == d) = some dev →
      dev.hasCb = true →
      execsFor d (remote_params_callback payload node) = [Ev.execCb d m])
  ∧ (∀ d, d ∉ payload.map Prod.fst →
      execsFor d (remote_params_callback payload node) = [])
  ∧ (∀ d, node.devices.find? (fun dv => dv.name == d) = none →
      execsFor d (remote_params_callback payload node) = []
      ∧ onlyExecs (remote_params_callback payload node) =
          onlyExecs (remote_params_callback
            (payload.filter (fun e => !(e.1 == d))) node)
      ∧ (∀ m, (d, m) ∈ payload →
          Ev.logUnknownDevice d ∈ remote_params_callback payload node)) := by
  refine ⟨?_, fun d => execsFor_absent node payload d, fun d hfind =>
    ⟨execsFor_unknown node d hfind payload,
     onlyExecs_drop_unknown node d hfind payload, fun m hm => ?_⟩⟩
  · intro d m dev hmem hfind hcb
    induction payload with
    | nil => exact absurd hmem (List.not_mem_nil _)
    | cons e rest ih =>
      rw [List.map_cons, List.nodup_cons] at hkeys
      rw [remote_params_callback, List.flatMap_cons, ← remote_params_callback,
        execsFor_append]
      rcases List.mem_cons.mp hmem with he | hrest
      · have he1 : e.1 = d := by rw [← he]
        have he2 : e.2 = m := by rw [← he]
        rw [execsFor_absent node rest d (he1 ▸ hkeys.1), List.append_nil,
          he1, he2, Node.exeute_device_callback, hfind]
        have hn : dev.name = d := find_device_name hfind
        simp [Device.execute_callback, hcb, execsFor, hn]
      · have hd : d ∈ rest.map Prod.fst :=
          List.mem_map.mpr ⟨(d, m), hrest, rfl⟩
        have hne : e.1 ≠ d := fun he => hkeys.1 (he ▸ hd)
        rw [execsFor_entry_ne node e.1 e.2 d hne, List.nil_append]
        exact ih hkeys.2 hrest
  · exact List.mem_flatMap.mpr ⟨(d, m), hm, by
      simp [Node.exeute_device_callback, hfind]⟩

/-- Witness for C1 at concrete inputs: `sampleNode` (one registered device
`LED` with a callback), payload `{LED: {Power: true}, X: {}}` with the
unknown device name `X`. -/
theorem remote_update_dispatch_witness :
    execsFor "LED" (remote_params_callback
        [("LED", [("Power", JValue.bool true)]), ("X", [])] sampleNode) =
      [Ev.execCb "LED" [("Power", JValue.bool true)]]
  ∧ execsFor "Fan" (remote_params_callback
        [("LED", [("Power", JValue.bool true)]), ("X", [])] sampleNode) = []
  ∧ execsFor "X" (remote_params_callback
        [("LED", [("Power", JValue.bool true)]), ("X", [])] sampleNode) = []
  ∧ Ev.logUnknownDevice "X" ∈ remote_params_callback
        [("LED", [("Power", JValue.bool true)]), ("X", [])] sampleNode := by
  have h := remote_update_dispatch sampleNode
    [("LED", [("Power", JValue.bool true)]), ("X", [])] (by decide)
  have h3 := h.2.2 "X" (by decide)
  exact ⟨h.1 "LED" [("Power", JValue.bool true)] sampleLed (by decide)
      (by decide) (by decide),
    h.2.1 "Fan" (by decide), h3.1, h3.2.2 [] (by decide)⟩

/-- C8: evaluation of the `GetPropertyValues` handler at the failing input.
For the requested indices `[0, 1]` it returns the hard-coded property info
`("Power", 2, 0, [0])` twice, resolving nothing through the registry's
get-accessor — which, embedded from src, serializes the full Node for
`config` and the current parameter snapshot for `params`. -/
theorem handle_cmd_get_property_values_ignores_registry :
    handle_cmd_get_property_values [0, 1] =
      (Status.success,
       [{ name := "Power", ptype := 2, flags := 0, value := [0] },
        { name := "Power", ptype := 2, flags := 0, value := [0] }])
  ∧ local_ctrl_get_val "config" sampleNode = Bytes.nodeConfig sampleNode
  ∧ local_ctrl_get_val "params" sampleNode =
      Bytes.paramSnapshot sampleNode.get_param_values :=
  ⟨rfl, rfl, rfl⟩

/-- The previous value `HashMap::insert` reports is exactly the map's current
binding for the key. -/
theorem attrInsert_fst (m : List (String × String)) (k v : String) :
    (attrInsert m k v).1 = m.lookup k := by
  induction m with
  | nil => rfl
  | cons hd tl ih =>
    obtain ⟨k2, v2⟩ := hd
    by_cases h : k2 = k
    · subst h
      simp [attrInsert, List.lookup]
    · have hbeq : (k == k2) = false := beq_eq_false_iff_ne.mpr fun he => h he.symm
      simp [attrInsert, h, List.lookup, hbeq, ih]

/-- C10: `add_attribute` panics (`expect` on `HashMap::insert`'s return
value) exactly when the attribute name is not already present; it succeeds
only when it replaces an existing attribute, so a first-time insertion always
aborts. -/
theorem add_attribute_new_key_panics (dev : Device) (name value : String) :
    (dev.attributes.lookup name = none →
      dev.add_attribute name value = Except.error "Failed to add attribute")
  ∧ (dev.attributes.lookup name ≠ none →
      dev.add_attribute name value =
        Except.ok { dev with attributes := (attrInsert dev.attributes name value).2 }) := by
  have hfst := attrInsert_fst dev.attributes name value
  constructor
  · intro hnone
    rw [hnone] at hfst
    simp [Device.add_attribute, hfst]
  · intro hsome
    rw [← hfst] at hsome
    cases hv : (attrInsert dev.attributes name value).1 with
    | none => exact absurd hv hsome
    | some v0 => simp [Device.add_attribute, hv]

/-- Soundness of the download loop for image lengths that fit in u32:
starting below the image length with the remaining stream summing exactly to
it, no u32 wrap occurs (every partial sum stays below 2^32), the loop
completes, the written chunks are the delivered non-zero reads, their total
closes the gap to the image length, and any reads the stream could deliver
afterwards are never consumed (the loop has already terminated). -/
theorem otaDownloadLoop_spec (reads : List Nat) (image_len : Nat)
    (hlen : image_len < 4294967296) :
    ∀ total : Nat, total < image_len → total + reads.sum = image_len →
    ∃ ws : List Nat,
      (∀ extra : List Nat,
        otaDownloadLoop (reads ++ extra) image_len total = some ws)
      ∧ total + ws.sum = image_len
      ∧ (∀ w ∈ ws, w ≠ 0) := by
  induction reads with
  | nil =>
    intro total hlt hsum
    simp only [List.sum_nil, Nat.add_zero] at hsum
    omega
  | cons r rest ih =>
    intro total hlt hsum
    rw [List.sum_cons] at hsum
    have hr32 : r % 4294967296 = r := Nat.mod_eq_of_lt (by omega)
    have hadd : (total + r % 4294967296) % 4294967296 = total + r := by
      rw [hr32]
      exact Nat.mod_eq_of_lt (by omega)
    by_cases hr : r = 0
    · subst hr
      obtain ⟨ws, hloop, hws, hnz⟩ := ih total hlt (by omega)
      exact ⟨ws, fun extra => by
        simpa [otaDownloadLoop] using hloop extra, hws, hnz⟩
    · by_cases he : total + r = image_len
      · refine ⟨[r], fun extra => ?_, by simpa using he, ?_⟩
        · simp [otaDownloadLoop, hr, hadd, he]
        · intro w hw
          rw [List.mem_singleton] at hw
          exact hw ▸ hr
      · have hlt2 : total + r < image_len := by omega
        obtain ⟨ws, hloop, hws, hnz⟩ := ih (total + r) hlt2 (by omega)
        refine ⟨r :: ws, fun extra => ?_, by simp [List.sum_cons]; omega, ?_⟩
        · simp [otaDownloadLoop, hr, hadd, he, hloop extra]
        · intro w hw
          rcases List.mem_cons.mp hw with h | h
          · exact h ▸ hr
          · exact hnz w h

/-- C2 counterexample: the source truncates the advertised content length to
u32 (`len as u32`, ota.rs line 77) and keeps `total_read_len` in u32, so for
the advertised length `L = 2^32 + 1`, delivered as a 1-byte read followed by
2097152 full 2048-byte buffer reads (summing exactly to `L`), the truncated
image length is `1` and the loop breaks after the first read: exactly one
byte is written — not `L` bytes — and the job id is persisted anyway. -/
theorem apply_ota_truncation_counterexample :
    (1 :: List.replicate 2097152 2048).sum = 4294967296 + 1
  ∧ RmakerOta.apply_ota false "u" (some (4294967296 + 1))
      (1 :: List.replicate 2097152 2048) "j" =
      some (RmakerOta.otaEventsOf "u" [1] "j")
  ∧ ((RmakerOta.otaEventsOf "u" [1] "j").filterMap writeLen).sum = 1
  ∧ ((RmakerOta.otaEventsOf "u" [1] "j").filterMap writeLen).sum ≠
      4294967296 + 1 := by
  have hloop : ∀ rest : List Nat, otaDownloadLoop (1 :: rest) 1 0 = some [1] := by
    intro rest
    simp [otaDownloadLoop]
  refine ⟨?_, ?_, rfl, by decide⟩
  · have h : (List.replicate 2097152 (2048 : Nat)).sum = 4294967296 :=
      (List.sum_replicate 2097152 2048).trans (by norm_num)
    rw [List.sum_cons, h]
  · generalize List.replicate 2097152 (2048 : Nat) = rest
    simp [RmakerOta.apply_ota, hloop]

/-- C2 (amended to image lengths that fit in u32): an OTA Apply run with
advertised content length `L < 2^32`, whose stream delivers the body in reads
of arbitrary sizes summing to `L`, writes exactly `L` bytes to the update
target (the written chunks sum to `L`), treats each zero-length read as a
retry, terminates the download loop exactly when the running total reaches
`L` (reads delivered after that point are never consumed), and persists the
job id exactly once, after the last byte has been written. -/
theorem apply_ota_download_correct (L : Nat) (reads : List Nat)
    (url ota_job_id : String) (hL : 0 < L) (hlt : L < 4294967296)
    (hsum : reads.sum = L) :
    ∃ ws : List Nat,
      otaDownloadLoop reads L 0 = some ws
      ∧ ws.sum = L
      ∧ (∀ extra, otaDownloadLoop (reads ++ extra) L 0 = some ws)
      ∧ (∀ rest t, otaDownloadLoop (0 :: rest) L t = otaDownloadLoop rest L t)
      ∧ RmakerOta.apply_ota false url (some L) reads ota_job_id =
          some (RmakerOta.otaEventsOf url ws ota_job_id)
      ∧ ((RmakerOta.otaEventsOf url ws ota_job_id).filterMap writeLen).sum = L
      ∧ (RmakerOta.otaEventsOf url ws ota_job_id).filter isPersistEv =
          [OtaEvent.persistJobId ota_job_id]
      ∧ ∃ pre post,
          RmakerOta.otaEventsOf url ws ota_job_id =
            pre ++ OtaEvent.persistJobId ota_job_id :: post
          ∧ pre.filter isPersistEv = []
          ∧ post.filter isWriteEv = []
          ∧ (pre.filterMap writeLen).sum = L := by
  obtain ⟨ws, hloop, hws, hnz⟩ :=
    otaDownloadLoop_spec reads L hlt 0 hL (by simpa using hsum)
  have hloop0 : otaDownloadLoop reads L 0 = some ws := by
    simpa using hloop []
  have hwrites : ∀ l : List Nat, (l.map OtaEvent.write).filterMap writeLen = l := by
    intro l
    induction l with
    | nil => rfl
    | cons w tl ihw =>
      simp only [List.map_cons, List.filterMap_cons, writeLen]
      rw [ihw]
  have hnopersist : ∀ l : List Nat, (l.map OtaEvent.write).filter isPersistEv = [] := by
    intro l
    induction l with
    | nil => rfl
    | cons w tl ihw =>
      simp only [List.map_cons, List.filter_cons, isPersistEv]
      simpa using ihw
  refine ⟨ws, hloop0, by omega, hloop, fun rest t => by simp [otaDownloadLoop],
    by simp [RmakerOta.apply_ota, Nat.mod_eq_of_lt hlt, hloop0], ?_, ?_, ?_⟩
  · simp [RmakerOta.otaEventsOf, writeLen, List.filterMap_append, hwrites]
    omega
  · simp [RmakerOta.otaEventsOf, isPersistEv, List.filter_append, hnopersist]
  · refine ⟨[OtaEvent.httpGet url,
        OtaEvent.report OtaSatus.inProgress "Starting OTA download"]
        ++ ws.map OtaEvent.write ++ [OtaEvent.updateComplete],
      [OtaEvent.report OtaSatus.inProgress
          "Download Complete. Rebooting to new firmware",
        OtaEvent.delayMs 10000, OtaEvent.restart], ?_, ?_, ?_, ?_⟩
    · simp [RmakerOta.otaEventsOf]
    · simp [isPersistEv, List.filter_append, hnopersist]
    · rfl
    · simp [writeLen, List.filterMap_append, hwrites]
      omega

/-- Witness for C2 at concrete inputs: `L = 5` (below 2^32), reads
`[2, 0, 3]` (a zero-length read in the middle), job id `"j"`.  The
projections below are obtained by applying the main theorem at these
inputs. -/
theorem apply_ota_download_correct_witness :
    ∃ ws : List Nat,
      otaDownloadLoop [2, 0, 3] 5 0 = some ws
      ∧ ws.sum = 5
      ∧ RmakerOta.apply_ota false "u" (some 5) [2, 0, 3] "j" =
          some (RmakerOta.otaEventsOf "u" ws "j") :=
  (apply_ota_download_correct 5 [2, 0, 3] "u" "j" (by decide) (by decide)
      (by decide)).elim
    fun ws h => ⟨ws, h.1, h.2.1, h.2.2.2.2.1⟩

/-- Witness for C10 at concrete inputs: inserting `"serial"` into the fresh
`sampleLed` (empty attributes) aborts; inserting over an existing binding
succeeds. -/
theorem add_attribute_new_key_panics_witness :
    (sampleLed.add_attribute "serial" "42" =
      Except.error "Failed to add attribute")
  ∧ ({ sampleLed with attributes := [("serial", "41")] }.add_attribute "serial" "42" =
      Except.ok { sampleLed with attributes := [("serial", "42")] }) :=
  ⟨(add_attribute_new_key_panics sampleLed "serial" "42").1 (by decide),
   (add_attribute_new_key_panics
      { sampleLed with attributes := [("serial", "41")] } "serial" "42").2
     (by decide)⟩

end Rainmaker
